import Mathlib

/-!
Verification of the mbot repository (gamified_mental_health_bot.py and
mental_health_bot_combined.py) against its natural-language specification.

The Python program is shallowly embedded: the external generation service is
an oracle `Nat → GenResult` (one value per issued call, in call order), the
Streamlit session cache is explicit state `Cache`, and the observable side
effects of one rewrite run (generation calls, backoff sleeps) are recorded in
a trace of events.
-/

namespace MBot

/-- Result of one call to the external generation service: either the
returned text or a raised exception carrying a message. -/
inductive GenResult where
  | ok (content : String)
  | err (msg : String)
deriving DecidableEq, Repr

/-- The meta dictionary built by ai_generate_questions:
used_model, ai_ok, reason. -/
structure Meta where
  used_model : Option String
  ai_ok : Bool
  reason : String
deriving DecidableEq, Repr

/-- Observable events of one rewrite run: a generation call (model name and
strictness flag) or a backoff sleep (time.sleep(0.2)). -/
inductive Ev where
  | call (model : String) (strict : Bool)
  | sleep
deriving DecidableEq, Repr

/-- Cache key: the pair (prompt, expected count).  The Python code keys its
session cache by the string built from hash(prompt) and expected; the pair
models that key (hash treated as injective). -/
abbrev CacheKey := String × Nat

/-- A cached outcome: the question list and the meta dictionary. -/
abbrev Outcome := List String × Meta

/-- The session cache, st.session_state restricted to the ai_q keys. -/
abbrev Cache := CacheKey → Option Outcome

/-- Python bool in an f-string prints as True / False. -/
def pyBoolStr (b : Bool) : String := if b then "True" else "False"

/-- Does the character list start with the given pattern? -/
def isPrefixList : List Char → List Char → Bool
  | [], _ => true
  | _ :: _, [] => false
  | p :: ps, c :: cs => p == c && isPrefixList ps cs

/-- Substring containment on character lists (Python's `in` on strings). -/
def containsList (pat : List Char) : List Char → Bool
  | [] => pat.isEmpty
  | c :: rest => isPrefixList pat (c :: rest) || containsList pat rest

/-- Python `pat in s` for strings. -/
def strIn (pat s : String) : Bool := containsList pat.data s.data

/-- Python str.lower(), modelled character-wise. -/
def pyLower (s : String) : String := ⟨s.data.map Char.toLower⟩

/-- Python str.strip() with no argument: drop whitespace on both ends. -/
def pyStrip (s : String) : String :=
  ⟨List.reverse (List.dropWhile Char.isWhitespace
    (List.reverse (List.dropWhile Char.isWhitespace s.data)))⟩

/-- The characters of the Python literal passed to lstrip at line 119. -/
def markerChars : List Char := "0123456789.)-–— •".data

/-- Python ln.lstrip("0123456789.)-–— •"). -/
def pyLstripMarkers (s : String) : String :=
  ⟨s.data.dropWhile (fun c => markerChars.contains c)⟩

/-- Python q.rstrip with the single character argument of a question mark. -/
def pyRstripQm (s : String) : String :=
  ⟨List.reverse ((List.reverse s.data).dropWhile (fun c => c == '?'))⟩

/-- Helper for content.split on the newline character. -/
def splitNlAux : List Char → List Char → List String
  | [], acc => [⟨acc.reverse⟩]
  | c :: rest, acc =>
      if c = '\n' then ⟨acc.reverse⟩ :: splitNlAux rest []
      else splitNlAux rest (c :: acc)

/-- Python content.split on the newline character (keeps empty fields). -/
def pySplitNl (s : String) : List String := splitNlAux s.data []

/-- SCENARIO_TRIGGERS from gamified_mental_health_bot.py lines 47-52. -/
def SCENARIO_TRIGGERS : List String :=
  ["when ", "while ", "before ", "after ", "at work", "in class", "on the bus",
   "in a meeting", "before bed", "waking up", "after dinner", "during a call",
   "at home", "with friends", "in public", "on your commute", "during chores",
   "with family", "on weekends"]

/-- _looks_situational from lines 54-56: the lowered line contains some
trigger, and the line contains a question mark. -/
def looks_situational (line : String) : Bool :=
  (SCENARIO_TRIGGERS.any (fun t => strIn t (pyLower line))) && strIn "?" line

/-- Line 118: split the content on newlines, strip each line, keep the
non-empty ones. -/
def contentLines (content : String) : List String :=
  ((pySplitNl content).map pyStrip).filter (fun l => l ≠ "")

/-- Line 119: strip leading numbering and bullet markers, then strip. -/
def cleanedLines (content : String) : List String :=
  (contentLines content).map (fun ln => pyStrip (pyLstripMarkers ln))

/-- The per-line validation of line 120: length strictly above 10 (applied
to the cleaned line) and _looks_situational. -/
def validLine (q : String) : Bool :=
  decide (10 < q.length) && looks_situational q

/-- scenario_lines of line 120: the cleaned lines passing validation. -/
def scenario_lines (content : String) : List String :=
  (cleanedLines content).filter validLine

/-- Line 121: questions = scenario_lines sliced to the first expected. -/
def attemptQuestions (expected : Nat) (content : String) : List String :=
  (scenario_lines content).take expected

/-- The acceptance test of line 123: len(questions) == expected. -/
def attemptAccepted (expected : Nat) (content : String) : Bool :=
  decide ((attemptQuestions expected content).length = expected)

/-- The meta written on acceptance (line 124). -/
def attempt_meta_ok (model_name : String) (strict : Bool) : Meta :=
  ⟨some model_name, true, "scenario-ok (strict=" ++ pyBoolStr strict ++ ")"⟩

/-- The meta written when the validated-line count is wrong (lines 128-129). -/
def attempt_meta_rej (model_name : String) (strict : Bool) (n : Nat) : Meta :=
  ⟨some model_name, false,
   "got " ++ toString n ++ " valid scenario lines (strict=" ++ pyBoolStr strict ++ ")"⟩

/-- The meta written when the generation call raises (line 132). -/
def attempt_meta_err (model_name : String) (e : String) : Meta :=
  ⟨some model_name, false, "error: " ++ e⟩

/-- Result of the nested attempt loops of lines 101-133: the accepted
question list if some attempt was accepted, the final meta, and the trace of
generation calls and backoff sleeps, in order. -/
structure RunRes where
  accepted : Option (List String)
  meta : Meta
  trace : List Ev

/-- The nested loops of lines 101-133 over the attempt list (model, strict):
call the oracle; on an exception record the error meta and continue; on
returned text strip it, validate, accept if the count matches, otherwise
record the rejection meta, sleep, and continue.  The counter k numbers the
generation calls in order. -/
def runAttempts (expected : Nat) (oracle : Nat → GenResult) :
    List (String × Bool) → Nat → Meta → RunRes
  | [], _, meta => ⟨none, meta, []⟩
  | (model_name, strict) :: rest, k, meta =>
    match oracle k with
    | GenResult.err e =>
        let r := runAttempts expected oracle rest (k + 1) (attempt_meta_err model_name e)
        ⟨r.accepted, r.meta, Ev.call model_name strict :: r.trace⟩
    | GenResult.ok raw =>
        let content := pyStrip raw
        if attemptAccepted expected content then
          ⟨some (attemptQuestions expected content), attempt_meta_ok model_name strict,
           [Ev.call model_name strict]⟩
        else
          let r := runAttempts expected oracle rest (k + 1)
            (attempt_meta_rej model_name strict (attemptQuestions expected content).length)
          ⟨r.accepted, r.meta, Ev.call model_name strict :: Ev.sleep :: r.trace⟩

/-- The default engine list of line 93. -/
def default_models : List String := ["gpt-4.1-nano", "gpt-4o-mini", "gpt-3.5-turbo"]

/-- The nested iteration order of lines 101-102: for each model, normal mode
first, then strict mode. -/
def attemptPlan : List String → List (String × Bool)
  | [] => []
  | m :: rest => (m, false) :: (m, true) :: attemptPlan rest

/-- The fallback patch of line 138: keep a default that already looks
situational, otherwise wrap it in a generic temporal clause. -/
def fix_default (q : String) : String :=
  if looks_situational q then q
  else "When you think about your day, " ++ pyRstripQm q ++ "?"

/-- The cache read of lines 96-97: skipped entirely when force_refresh. -/
def cacheRead (cache : Cache) (key : CacheKey) (force_refresh : Bool) : Option Outcome :=
  if force_refresh then none else cache key

/-- A cache write (lines 125 and 140): dict assignment, overwriting. -/
def cacheWrite (cache : Cache) (key : CacheKey) (v : Outcome) : Cache :=
  fun k => if k = key then some v else cache k

/-- The observable result of one call to ai_generate_questions: the returned
question list and meta, the session cache afterwards, and the event trace. -/
structure AiResult where
  questions : List String
  meta : Meta
  cache : Cache
  trace : List Ev

/-- ai_generate_questions of lines 86-141.  The oracle supplies the outcome
of each generation call in call order; the cache is the session state. -/
def ai_generate_questions (oracle : Nat → GenResult) (cache : Cache) (prompt : String)
    (defaults : List String) (model_candidates : List String) (force_refresh : Bool) :
    AiResult :=
  let expected := defaults.length
  let models := if model_candidates.isEmpty then default_models else model_candidates
  let key : CacheKey := (prompt, expected)
  match cacheRead cache key force_refresh with
  | some (qs, m) => ⟨qs, m, cache, []⟩
  | none =>
    let r := runAttempts expected oracle (attemptPlan models) 0 ⟨none, false, "not attempted"⟩
    match r.accepted with
    | some qs => ⟨qs, r.meta, cacheWrite cache key (qs, r.meta), r.trace⟩
    | none =>
      let fixed := defaults.map fix_default
      ⟨fixed, r.meta, cacheWrite cache key (fixed, r.meta), r.trace⟩

/-- Did the oracle's k-th call, validated at the given expected count,
accept?  Exceptions never accept; returned text accepts when the stripped
content passes the count test of line 123. -/
def attemptOk (expected : Nat) (oracle : Nat → GenResult) (k : Nat) : Bool :=
  match oracle k with
  | GenResult.ok raw => attemptAccepted expected (pyStrip raw)
  | GenResult.err _ => false

/-- The generation calls recorded in a trace, in order. -/
def callsOf (tr : List Ev) : List (String × Bool) :=
  tr.filterMap (fun e => match e with
    | Ev.call m s => some (m, s)
    | Ev.sleep => none)

/-- A cache is valid when every stored outcome has as many questions as its
key's expected count, all of them situational. -/
def CacheValid (c : Cache) : Prop :=
  ∀ key qs m, c key = some (qs, m) →
    qs.length = key.2 ∧ ∀ q ∈ qs, looks_situational q = true

/-- score_map of lines 166-171 (identical in both source files). -/
def score_map : List (String × Nat) :=
  [("😄 Not at all", 0),
   ("🙂 Several days", 1),
   ("😐 More than half the days", 2),
   ("😟 Nearly every day", 3)]

/-- emoji_options of line 172: the keys of score_map. -/
def emoji_options : List String := score_map.map Prod.fst

/-- The point value of the selected band index: score_map looked up at the
option the slider returned. -/
def optionScore (i : Fin 4) : Nat := (score_map.map Prod.snd).getD i.val 0

/-- The accumulation loops of lines 202-205 and 234-237: the screener score
is the sum of the selected options' point values. -/
def total_score : List (Fin 4) → Nat
  | [] => 0
  | i :: rest => optionScore i + total_score rest

/-- gad_defaults of lines 186-194. -/
def gad_defaults : List String :=
  ["You’re at work or school and feel your chest tighten. How often does that happen?",
   "You worry even when everything seems fine. How often does this happen?",
   "You stay up late thinking about the worst that could happen. How often is this true?",
   "You notice your muscles tensing or struggle to relax. How often do you feel that?",
   "You fidget a lot or can’t sit still. How frequently does this affect you?",
   "You snap at small things more than usual. How often is this true?",
   "You avoid plans or places out of worry. How often do you do that?"]

/-- phq_defaults of lines 216-226. -/
def phq_defaults : List String :=
  ["You used to enjoy certain things—how interested are you in them lately?",
   "Do mornings feel heavy, like starting the day takes extra effort?",
   "Has your sleep been off—too much or too little?",
   "How often do you feel tired or low on energy?",
   "Has your appetite changed—eating more or less than usual?",
   "Do you find yourself feeling guilty or putting yourself down more often?",
   "Is it harder to focus on reading, shows, or conversations?",
   "Have you felt slowed down or, the opposite, unusually restless?",
   "Have you had thoughts that life isn’t worth it or that you’d be better off gone?"]

/-- The GAD-7 result banner of lines 246-253. -/
def gad_severity (gad_score : Int) : String :=
  if gad_score ≤ 4 then "Minimal anxiety"
  else if gad_score ≤ 9 then "Mild anxiety"
  else if gad_score ≤ 14 then "Moderate anxiety — consider professional support."
  else "Severe anxiety — please seek help."

/-- The PHQ-9 result banner of lines 256-265. -/
def phq_severity (phq_score : Int) : String :=
  if phq_score ≤ 4 then "Minimal depression"
  else if phq_score ≤ 9 then "Mild depression"
  else if phq_score ≤ 14 then "Moderate depression — consider support."
  else if phq_score ≤ 19 then "Moderately severe depression — therapy recommended."
  else "Severe depression — seek help immediately."

/-- Modelled from the spec (section 4.3): the severity-band table for the
anxiety screener as an ordered list of (upper-bound-inclusive, label), to be
compared with the chained conditionals of the source. -/
def gad_band_table : List (Int × String) :=
  [(4, "Minimal anxiety"),
   (9, "Mild anxiety"),
   (14, "Moderate anxiety — consider professional support."),
   (21, "Severe anxiety — please seek help.")]

/-- Modelled from the spec (section 4.3): the severity-band table for the
depression screener. -/
def phq_band_table : List (Int × String) :=
  [(4, "Minimal depression"),
   (9, "Mild depression"),
   (14, "Moderate depression — consider support."),
   (19, "Moderately severe depression — therapy recommended."),
   (27, "Severe depression — seek help immediately.")]

/-- Modelled from the spec (section 4.3): look up the first band whose upper
bound is at least the score. -/
def band_lookup : List (Int × String) → Int → Option String
  | [], _ => none
  | (ub, label) :: rest, s => if s ≤ ub then some label else band_lookup rest s

/-- The badge conditional of lines 269-274 (identical in both source files),
as a function of the two scores.  The parameters follow the spec's
classify_badge signature: anxiety score (gad) first, depression score (phq)
second; the conditions are those of the source, which tests phq first. -/
def classify_badge (anxiety_score depression_score : Int) : String :=
  if depression_score < 10 ∧ anxiety_score < 10 then
    "✅ **Mindful Mover Badge** — keep up the self-care!"
  else if (10 ≤ depression_score ∧ depression_score < 15) ∨
          (10 ≤ anxiety_score ∧ anxiety_score < 15) then
    "🌱 **Resilience Builder Badge** — you’re showing strength."
  else
    "🛡️ **Courageous Warrior Badge** — you’re fighting hard. Please talk to someone."

/-- Are the upper bounds of a band table strictly ascending? -/
def ascendingBounds : List Int → Bool
  | [] => true
  | [_] => true
  | x :: y :: rest => decide (x < y) && ascendingBounds (y :: rest)

/-- An always-failing oracle: every generation call raises. -/
def err_oracle : Nat → GenResult := fun _ => GenResult.err "boom"

/-- The empty session cache. -/
def empty_cache : Cache := fun _ => none

/-- A one-entry session cache holding an outcome for the key of prompt p
with expected count 1. -/
def hit_cache : Cache :=
  fun key => if key = ("p", 1) then some (["q?"], ⟨some "m", true, "r"⟩) else none

/-- A generation output holding two validated situational lines. -/
def two_line_content : String :=
  "When I rest, do I feel calm now?\nAt work, do I feel tense now?"

/-- An oracle whose every call returns the two-line output. -/
def two_line_oracle : Nat → GenResult := fun _ => GenResult.ok two_line_content

/-- Claim C1 (counterexample): with one expected question, an attempt whose
output contains two validated situational lines is not rejected: the code
truncates scenario_lines to the expected count and accepts, caching and
returning ai_ok true, contrary to the claim that a validated-line count
above N is a full-attempt failure. -/
theorem C1_counterexample :
    (scenario_lines (pyStrip two_line_content)).length = 2 ∧
    (ai_generate_questions two_line_oracle empty_cache "p" ["a?"] [] true).meta.ai_ok
      = true ∧
    (ai_generate_questions two_line_oracle empty_cache "p" ["a?"] [] true).questions
      = ["When I rest, do I feel calm now?"] := by
  refine ⟨by decide, by decide, by decide⟩

/-- Claim C1 (amended): an attempt is accepted exactly when the number of
validated lines is at least the expected count N (the list is truncated to
its first N entries); a shortfall, even by one, remains a full-attempt
failure.  attemptAccepted is the acceptance test of line 123 and
attemptQuestions the slice of line 121. -/
theorem C1_amended (expected : Nat) (content : String) :
    (attemptAccepted expected content = true ↔
      expected ≤ (scenario_lines content).length) ∧
    attemptQuestions expected content = (scenario_lines content).take expected := by
  refine ⟨?_, rfl⟩
  simp only [attemptAccepted, attemptQuestions, List.length_take, decide_eq_true_eq]
  omega

/-- Appending on the right preserves the String data list. -/
theorem str_data_append (a b : String) : (a ++ b).data = a.data ++ b.data := rfl

/-- A pattern starting a list still starts the list extended on the right. -/
theorem isPrefixList_append (p a b : List Char) (h : isPrefixList p a = true) :
    isPrefixList p (a ++ b) = true := by
  induction p generalizing a with
  | nil => simp [isPrefixList]
  | cons x xs ih =>
      cases a with
      | nil => simp [isPrefixList] at h
      | cons c cs =>
          simp only [List.cons_append, isPrefixList, Bool.and_eq_true] at h ⊢
          exact ⟨h.1, ih cs h.2⟩

/-- A pattern starting a list is contained in it. -/
theorem containsList_of_isPrefixList (p s : List Char) (h : isPrefixList p s = true) :
    containsList p s = true := by
  cases s with
  | nil =>
      cases p with
      | nil => rfl
      | cons x xs => simp [isPrefixList] at h
  | cons c cs => simp [containsList, h]

/-- A pattern contained in a list is contained in it extended on the left. -/
theorem containsList_append_right (p a b : List Char) (h : containsList p b = true) :
    containsList p (a ++ b) = true := by
  induction a with
  | nil => simpa using h
  | cons c cs ih => simp [containsList, ih]

/-- The fallback wrapper of line 138 always passes _looks_situational: its
lowered text starts with the trigger phrase and it ends with a question
mark. -/
theorem looks_situational_wrap (q : String) :
    looks_situational ("When you think about your day, " ++ pyRstripQm q ++ "?") = true := by
  have hdata : (("When you think about your day, " ++ pyRstripQm q ++ "?") : String).data
      = ("When you think about your day, " : String).data
        ++ ((pyRstripQm q).data ++ ("?" : String).data) := by
    rw [str_data_append, str_data_append, List.append_assoc]
  have hlow : (pyLower ("When you think about your day, " ++ pyRstripQm q ++ "?")).data
      = ("when you think about your day, " : String).data
        ++ ((pyRstripQm q).data ++ ("?" : String).data).map Char.toLower := by
    show (("When you think about your day, " ++ pyRstripQm q ++ "?") : String).data.map Char.toLower = _
    rw [hdata, List.map_append]
    rfl
  have htrig : strIn "when " (pyLower ("When you think about your day, " ++ pyRstripQm q ++ "?")) = true := by
    show containsList ("when " : String).data _ = true
    rw [hlow]
    refine containsList_of_isPrefixList _ _ (isPrefixList_append _ _ _ ?_)
    decide
  have hqm : strIn "?" ("When you think about your day, " ++ pyRstripQm q ++ "?") = true := by
    show containsList ("?" : String).data _ = true
    rw [hdata, ← List.append_assoc]
    exact containsList_append_right _ _ _ (by decide)
  simp only [looks_situational, Bool.and_eq_true, List.any_eq_true]
  exact ⟨⟨"when ", by decide, htrig⟩, hqm⟩

/-- Every fallback question of lines 136-138 passes _looks_situational. -/
theorem fix_default_ok (q : String) : looks_situational (fix_default q) = true := by
  unfold fix_default
  by_cases h : looks_situational q = true
  · simp [h]
  · simp only [Bool.not_eq_true] at h
    simp [h, looks_situational_wrap]

/-- Every accepted question of an attempt passes _looks_situational. -/
theorem mem_attemptQuestions_ok (expected : Nat) (content : String) (q : String)
    (hq : q ∈ attemptQuestions expected content) : looks_situational q = true := by
  have h1 : q ∈ scenario_lines content := List.take_subset _ _ hq
  have h2 := (List.mem_filter.mp h1).2
  have h3 := (Bool.and_eq_true _ _).mp h2
  exact h3.2

/-- When the attempt loop accepts, the returned list has exactly the
expected length, every entry is situational, and the final meta has ai_ok
true. -/
theorem run_accepted_spec (expected : Nat) (oracle : Nat → GenResult) :
    ∀ (plan : List (String × Bool)) (k : Nat) (meta : Meta) (qs : List String),
      (runAttempts expected oracle plan k meta).accepted = some qs →
      qs.length = expected ∧ (∀ q ∈ qs, looks_situational q = true) ∧
        (runAttempts expected oracle plan k meta).meta.ai_ok = true := by
  intro plan
  induction plan with
  | nil => intro k meta qs h; simp [runAttempts] at h
  | cons a rest ih =>
      obtain ⟨m, s⟩ := a
      intro k meta qs h
      cases horc : oracle k with
      | err e =>
          simp only [runAttempts, horc] at h ⊢
          exact ih (k + 1) (attempt_meta_err m e) qs h
      | ok raw =>
          by_cases hacc : attemptAccepted expected (pyStrip raw) = true
          · simp only [runAttempts, horc, hacc, if_true] at h ⊢
            obtain rfl : attemptQuestions expected (pyStrip raw) = qs := by
              simpa using h
            refine ⟨?_, fun q hq => mem_attemptQuestions_ok _ _ q hq, rfl⟩
            have := of_decide_eq_true hacc
            exact this
          · simp only [Bool.not_eq_true] at hacc
            simp only [runAttempts, horc, hacc, Bool.false_eq_true, if_false] at h ⊢
            exact ih (k + 1) _ qs h

/-- When the attempt loop accepts nothing, ai_ok stays false: the initial
meta and every recorded failure meta have ai_ok false. -/
theorem run_none_meta (expected : Nat) (oracle : Nat → GenResult) :
    ∀ (plan : List (String × Bool)) (k : Nat) (meta : Meta),
      meta.ai_ok = false →
      (runAttempts expected oracle plan k meta).accepted = none →
      (runAttempts expected oracle plan k meta).meta.ai_ok = false := by
  intro plan
  induction plan with
  | nil => intro k meta hm _; simpa [runAttempts] using hm
  | cons a rest ih =>
      obtain ⟨m, s⟩ := a
      intro k meta hm hn
      cases horc : oracle k with
      | err e =>
          simp only [runAttempts, horc] at hn ⊢
          exact ih (k + 1) (attempt_meta_err m e) rfl hn
      | ok raw =>
          by_cases hacc : attemptAccepted expected (pyStrip raw) = true
          · simp [runAttempts, horc, hacc] at hn
          · simp only [Bool.not_eq_true] at hacc
            simp only [runAttempts, horc, hacc, Bool.false_eq_true, if_false] at hn ⊢
            exact ih (k + 1) _ rfl hn

/-- When no call of the oracle can be accepted at the expected count, the
attempt loop accepts nothing. -/
theorem run_none_of_allfail (expected : Nat) (oracle : Nat → GenResult)
    (hall : ∀ k, attemptOk expected oracle k = false) :
    ∀ (plan : List (String × Bool)) (k : Nat) (meta : Meta),
      (runAttempts expected oracle plan k meta).accepted = none := by
  intro plan
  induction plan with
  | nil => intro k meta; simp [runAttempts]
  | cons a rest ih =>
      obtain ⟨m, s⟩ := a
      intro k meta
      cases horc : oracle k with
      | err e =>
          simp only [runAttempts, horc]
          exact ih (k + 1) _
      | ok raw =>
          have hacc : attemptAccepted expected (pyStrip raw) = false := by
            have := hall k
            simpa [attemptOk, horc] using this
          simp only [runAttempts, horc, hacc, Bool.false_eq_true, if_false]
          exact ih (k + 1) _

/-- The trace of the attempt loop on a non-empty plan starts with the
generation call of the first planned attempt. -/
theorem run_trace_head (expected : Nat) (oracle : Nat → GenResult)
    (m : String) (s : Bool) (rest : List (String × Bool)) (k : Nat) (meta : Meta) :
    ∃ t, (runAttempts expected oracle ((m, s) :: rest) k meta).trace = Ev.call m s :: t := by
  cases horc : oracle k with
  | err e =>
      refine ⟨(runAttempts expected oracle rest (k + 1) (attempt_meta_err m e)).trace, ?_⟩
      simp [runAttempts, horc]
  | ok raw =>
      by_cases hacc : attemptAccepted expected (pyStrip raw) = true
      · exact ⟨[], by simp [runAttempts, horc, hacc]⟩
      · simp only [Bool.not_eq_true] at hacc
        refine ⟨Ev.sleep :: (runAttempts expected oracle rest (k + 1)
          (attempt_meta_rej m s (attemptQuestions expected (pyStrip raw)).length)).trace, ?_⟩
        simp [runAttempts, horc, hacc]

/-- The plan visits each model twice: normal mode then strict mode. -/
theorem attemptPlan_length (ms : List String) :
    (attemptPlan ms).length = 2 * ms.length := by
  induction ms with
  | nil => rfl
  | cons m rest ih => simp [attemptPlan, ih]; omega

/-- On a cache miss or forced refresh, ai_generate_questions reduces to the
attempt loop over the planned attempts, falling back to the patched
defaults, and writes the outcome to the cache. -/
theorem ai_miss (oracle : Nat → GenResult) (cache : Cache) (prompt : String)
    (defaults model_candidates : List String) (force_refresh : Bool)
    (hmiss : cacheRead cache (prompt, defaults.length) force_refresh = none) :
    (ai_generate_questions oracle cache prompt defaults model_candidates force_refresh).trace
      = (runAttempts defaults.length oracle
          (attemptPlan (if model_candidates.isEmpty then default_models else model_candidates))
          0 ⟨none, false, "not attempted"⟩).trace ∧
    (ai_generate_questions oracle cache prompt defaults model_candidates force_refresh).meta
      = (runAttempts defaults.length oracle
          (attemptPlan (if model_candidates.isEmpty then default_models else model_candidates))
          0 ⟨none, false, "not attempted"⟩).meta ∧
    (∀ qs, (runAttempts defaults.length oracle
          (attemptPlan (if model_candidates.isEmpty then default_models else model_candidates))
          0 ⟨none, false, "not attempted"⟩).accepted = some qs →
      (ai_generate_questions oracle cache prompt defaults model_candidates force_refresh).questions = qs) ∧
    ((runAttempts defaults.length oracle
          (attemptPlan (if model_candidates.isEmpty then default_models else model_candidates))
          0 ⟨none, false, "not attempted"⟩).accepted = none →
      (ai_generate_questions oracle cache prompt defaults model_candidates force_refresh).questions
        = defaults.map fix_default) ∧
    (ai_generate_questions oracle cache prompt defaults model_candidates force_refresh).cache
      = cacheWrite cache (prompt, defaults.length)
          ((ai_generate_questions oracle cache prompt defaults model_candidates force_refresh).questions,
           (ai_generate_questions oracle cache prompt defaults model_candidates force_refresh).meta) := by
  simp only [ai_generate_questions]
  rw [hmiss]
  cases hacc : (runAttempts defaults.length oracle
      (attemptPlan (if model_candidates.isEmpty then default_models else model_candidates))
      0 ⟨none, false, "not attempted"⟩).accepted with
  | some qs => simp [hacc]
  | none => simp [hacc]

/-- On a cache hit without force_refresh, ai_generate_questions returns the
cached outcome, leaves the cache unchanged, and makes no generation call. -/
theorem ai_hit (oracle : Nat → GenResult) (cache : Cache) (prompt : String)
    (defaults model_candidates : List String) (force_refresh : Bool) (out : Outcome)
    (hhit : cacheRead cache (prompt, defaults.length) force_refresh = some out) :
    ai_generate_questions oracle cache prompt defaults model_candidates force_refresh
      = ⟨out.1, out.2, cache, []⟩ := by
  obtain ⟨qs, m⟩ := out
  simp only [ai_generate_questions]
  rw [hhit]

/-- Unfolding the attempt loop on the empty plan. -/
theorem runAttempts_nil (expected : Nat) (oracle : Nat → GenResult) (k : Nat) (meta : Meta) :
    runAttempts expected oracle [] k meta = ⟨none, meta, []⟩ := rfl

/-- Unfolding one erroring attempt: the failure reason is recorded in the
meta handed to the remaining attempts, iteration continues, and the only
event added to the trace is the generation call itself — no backoff sleep. -/
theorem runAttempts_err_step (expected : Nat) (oracle : Nat → GenResult)
    (m : String) (s : Bool) (rest : List (String × Bool)) (k : Nat) (meta : Meta)
    (e : String) (horc : oracle k = GenResult.err e) :
    runAttempts expected oracle ((m, s) :: rest) k meta =
      ⟨(runAttempts expected oracle rest (k + 1) (attempt_meta_err m e)).accepted,
       (runAttempts expected oracle rest (k + 1) (attempt_meta_err m e)).meta,
       Ev.call m s :: (runAttempts expected oracle rest (k + 1) (attempt_meta_err m e)).trace⟩ := by
  simp [runAttempts, horc]

/-- Unfolding one rejected attempt: the count-mismatch reason is recorded, a
backoff sleep follows the call in the trace, and iteration continues. -/
theorem runAttempts_rej_step (expected : Nat) (oracle : Nat → GenResult)
    (m : String) (s : Bool) (rest : List (String × Bool)) (k : Nat) (meta : Meta)
    (raw : String) (horc : oracle k = GenResult.ok raw)
    (hacc : attemptAccepted expected (pyStrip raw) = false) :
    runAttempts expected oracle ((m, s) :: rest) k meta =
      ⟨(runAttempts expected oracle rest (k + 1)
          (attempt_meta_rej m s (attemptQuestions expected (pyStrip raw)).length)).accepted,
       (runAttempts expected oracle rest (k + 1)
          (attempt_meta_rej m s (attemptQuestions expected (pyStrip raw)).length)).meta,
       Ev.call m s :: Ev.sleep :: (runAttempts expected oracle rest (k + 1)
          (attempt_meta_rej m s (attemptQuestions expected (pyStrip raw)).length)).trace⟩ := by
  simp [runAttempts, horc, hacc]

/-- Unfolding one accepted attempt: the loop returns at once. -/
theorem runAttempts_acc_step (expected : Nat) (oracle : Nat → GenResult)
    (m : String) (s : Bool) (rest : List (String × Bool)) (k : Nat) (meta : Meta)
    (raw : String) (horc : oracle k = GenResult.ok raw)
    (hacc : attemptAccepted expected (pyStrip raw) = true) :
    runAttempts expected oracle ((m, s) :: rest) k meta =
      ⟨some (attemptQuestions expected (pyStrip raw)), attempt_meta_ok m s,
       [Ev.call m s]⟩ := by
  simp [runAttempts, horc, hacc]

/-- callsOf drops nothing from an empty trace. -/
theorem callsOf_nil : callsOf [] = [] := rfl

/-- callsOf keeps generation calls. -/
theorem callsOf_call (m : String) (s : Bool) (tr : List Ev) :
    callsOf (Ev.call m s :: tr) = (m, s) :: callsOf tr := rfl

/-- callsOf drops sleeps. -/
theorem callsOf_sleep (tr : List Ev) : callsOf (Ev.sleep :: tr) = callsOf tr := rfl

/-- The attempt loop makes its generation calls in plan order: the calls in
the trace are a prefix of the plan, every attempt before the last call made
fails, and either the last call made is the first accepted attempt or the
whole plan was exhausted with nothing accepted. -/
theorem run_calls_spec (expected : Nat) (oracle : Nat → GenResult) :
    ∀ (plan : List (String × Bool)) (k : Nat) (meta : Meta),
      ∃ j, j ≤ plan.length ∧
        (∀ i, i < j → attemptOk expected oracle (k + i) = false) ∧
        (((runAttempts expected oracle plan k meta).accepted.isSome = true ∧
            j < plan.length ∧ attemptOk expected oracle (k + j) = true ∧
            callsOf (runAttempts expected oracle plan k meta).trace = plan.take (j + 1)) ∨
         ((runAttempts expected oracle plan k meta).accepted = none ∧
            j = plan.length ∧
            callsOf (runAttempts expected oracle plan k meta).trace = plan)) := by
  intro plan
  induction plan with
  | nil =>
      intro k meta
      exact ⟨0, Nat.le_refl 0, fun i hi => absurd hi (Nat.not_lt_zero i),
        Or.inr ⟨rfl, rfl, rfl⟩⟩
  | cons a rest ih =>
      obtain ⟨m, s⟩ := a
      intro k meta
      by_cases hok : attemptOk expected oracle k = true
      · refine ⟨0, Nat.zero_le _, fun i hi => absurd hi (Nat.not_lt_zero i), Or.inl ?_⟩
        cases horc : oracle k with
        | err e => simp [attemptOk, horc] at hok
        | ok raw =>
            have hacc : attemptAccepted expected (pyStrip raw) = true := by
              simpa [attemptOk, horc] using hok
            rw [runAttempts_acc_step expected oracle m s rest k meta raw horc hacc]
            refine ⟨rfl, by simp, by simpa using hok, ?_⟩
            rw [callsOf_call]
            rfl
      · simp only [Bool.not_eq_true] at hok
        cases horc : oracle k with
        | err e =>
            obtain ⟨j, hj, hfail, hcase⟩ := ih (k + 1) (attempt_meta_err m e)
            rw [runAttempts_err_step expected oracle m s rest k meta e horc]
            refine ⟨j + 1, by simpa using Nat.succ_le_succ hj, ?_, ?_⟩
            · intro i hi
              match i with
              | 0 => simpa using hok
              | i' + 1 =>
                  rw [show k + (i' + 1) = (k + 1) + i' by omega]
                  exact hfail i' (by omega)
            · rcases hcase with ⟨hsome, hlt, hokj, hcalls⟩ | ⟨hnone, hjlen, hcalls⟩
              · left
                refine ⟨hsome, by simpa using Nat.succ_lt_succ hlt, ?_, ?_⟩
                · rw [show k + (j + 1) = (k + 1) + j by omega]
                  exact hokj
                · rw [callsOf_call, hcalls, List.take_succ_cons]
              · right
                refine ⟨hnone, by simp [hjlen], ?_⟩
                rw [callsOf_call, hcalls]
        | ok raw =>
            have hacc : attemptAccepted expected (pyStrip raw) = false := by
              simpa [attemptOk, horc] using hok
            obtain ⟨j, hj, hfail, hcase⟩ := ih (k + 1)
              (attempt_meta_rej m s (attemptQuestions expected (pyStrip raw)).length)
            rw [runAttempts_rej_step expected oracle m s rest k meta raw horc hacc]
            refine ⟨j + 1, by simpa using Nat.succ_le_succ hj, ?_, ?_⟩
            · intro i hi
              match i with
              | 0 => simpa using hok
              | i' + 1 =>
                  rw [show k + (i' + 1) = (k + 1) + i' by omega]
                  exact hfail i' (by omega)
            · rcases hcase with ⟨hsome, hlt, hokj, hcalls⟩ | ⟨hnone, hjlen, hcalls⟩
              · left
                refine ⟨hsome, by simpa using Nat.succ_lt_succ hlt, ?_, ?_⟩
                · rw [show k + (j + 1) = (k + 1) + j by omega]
                  exact hokj
                · rw [callsOf_call, callsOf_sleep, hcalls, List.take_succ_cons]
              · right
                refine ⟨hnone, by simp [hjlen], ?_⟩
                rw [callsOf_call, callsOf_sleep, hcalls]

/-- Claim C7: badge classification is total and assigns exactly one tier in
priority order: the low tier (Mindful Mover) exactly when both scores are
below 10; otherwise the mid tier (Resilience Builder) exactly when either
score lies in the interval from 10 inclusive to 15 exclusive; otherwise the
high tier (Courageous Warrior).  In particular anxiety 8 with depression 12
yields the Resilience Builder badge. -/
theorem C7_badge :
    (∀ a d : Int,
      (classify_badge a d = "✅ **Mindful Mover Badge** — keep up the self-care!"
        ↔ (a < 10 ∧ d < 10)) ∧
      (classify_badge a d = "🌱 **Resilience Builder Badge** — you’re showing strength."
        ↔ (¬(a < 10 ∧ d < 10) ∧ ((10 ≤ a ∧ a < 15) ∨ (10 ≤ d ∧ d < 15)))) ∧
      (classify_badge a d = "🛡️ **Courageous Warrior Badge** — you’re fighting hard. Please talk to someone."
        ↔ (¬(a < 10 ∧ d < 10) ∧ ¬((10 ≤ a ∧ a < 15) ∨ (10 ≤ d ∧ d < 15))))) ∧
    classify_badge 8 12 = "🌱 **Resilience Builder Badge** — you’re showing strength." := by
  have hlm : ("✅ **Mindful Mover Badge** — keep up the self-care!" : String)
      ≠ "🌱 **Resilience Builder Badge** — you’re showing strength." := by decide
  have hlh : ("✅ **Mindful Mover Badge** — keep up the self-care!" : String)
      ≠ "🛡️ **Courageous Warrior Badge** — you’re fighting hard. Please talk to someone." := by decide
  have hmh : ("🌱 **Resilience Builder Badge** — you’re showing strength." : String)
      ≠ "🛡️ **Courageous Warrior Badge** — you’re fighting hard. Please talk to someone." := by decide
  refine ⟨fun a d => ?_, by decide⟩
  unfold classify_badge
  split_ifs with h1 h2
  · exact ⟨⟨fun _ => by omega, fun _ => rfl⟩,
      ⟨fun h => absurd h hlm, fun hp => absurd hp (by omega)⟩,
      ⟨fun h => absurd h hlh, fun hp => absurd hp (by omega)⟩⟩
  · exact ⟨⟨fun h => absurd h (Ne.symm hlm), fun hp => absurd hp (by omega)⟩,
      ⟨fun _ => by omega, fun _ => rfl⟩,
      ⟨fun h => absurd h hmh, fun hp => absurd hp (by omega)⟩⟩
  · exact ⟨⟨fun h => absurd h (Ne.symm hlh), fun hp => absurd hp (by omega)⟩,
      ⟨fun h => absurd h (Ne.symm hmh), fun hp => absurd hp (by omega)⟩,
      ⟨fun _ => by omega, fun _ => rfl⟩⟩

/-- Claim C8: severity classification is total and deterministic: on every
score in the valid range it agrees with first-match lookup in a band table
whose upper bounds ascend strictly and end at the maximum score, so each
score falls in exactly one band; a GAD-7 score of 0 yields the Minimal
anxiety banner and 21 the Severe anxiety banner (whose leading label is
Severe anxiety). -/
theorem C8_severity :
    (∀ s : Fin 22, band_lookup gad_band_table (s.val : Int)
      = some (gad_severity (s.val : Int))) ∧
    (∀ s : Fin 28, band_lookup phq_band_table (s.val : Int)
      = some (phq_severity (s.val : Int))) ∧
    ascendingBounds (gad_band_table.map Prod.fst) = true ∧
    ascendingBounds (phq_band_table.map Prod.fst) = true ∧
    (gad_band_table.map Prod.fst).getLast? = some 21 ∧
    (phq_band_table.map Prod.fst).getLast? = some 27 ∧
    gad_severity 0 = "Minimal anxiety" ∧
    isPrefixList "Severe anxiety".data (gad_severity 21).data = true := by
  refine ⟨by decide, by decide, by decide, by decide, by decide, by decide, by decide, by decide⟩

/-- Every selectable option is worth at most 3 points. -/
theorem optionScore_le_three (i : Fin 4) : optionScore i ≤ 3 := by
  fin_cases i <;> decide

/-- The summed score is bounded by 3 points per answered item. -/
theorem total_score_le (responses : List (Fin 4)) :
    total_score responses ≤ 3 * responses.length := by
  induction responses with
  | nil => simp [total_score]
  | cons i rest ih =>
      have := optionScore_le_three i
      simp only [total_score, List.length_cons]
      omega

/-- Claim C9: for every valid answer set (one selected band index per item),
the raw score, the sum of the selected options' point values, lies between 0
and 3 times the item count; with the 7 anxiety items it lies in 0 to 21 and
with the 9 depression items in 0 to 27.  The score is a natural number, so
the lower bound 0 holds by type. -/
theorem C9_score_bounds :
    (∀ responses : List (Fin 4), total_score responses ≤ 3 * responses.length) ∧
    (∀ answers : Fin 7 → Fin 4, total_score (List.ofFn answers) ≤ 21) ∧
    (∀ answers : Fin 9 → Fin 4, total_score (List.ofFn answers) ≤ 27) ∧
    gad_defaults.length = 7 ∧ phq_defaults.length = 9 := by
  refine ⟨total_score_le, fun answers => ?_, fun answers => ?_, rfl, rfl⟩
  · have h := total_score_le (List.ofFn answers)
    simpa using h
  · have h := total_score_le (List.ofFn answers)
    simpa using h

/-- Claim C10: a cleaned generation-output line passes the validation of
line 120 exactly when its character length is strictly greater than 10 and
it is situational (contains a question mark and a marker token); in
particular the ten-character line holding the first marker and a question
mark is situational yet rejected, and scenario_lines filters the cleaned
lines by exactly this predicate. -/
theorem C10_min_length :
    (∀ q : String, validLine q = true ↔ (10 < q.length ∧ looks_situational q = true)) ∧
    looks_situational "When am I?" = true ∧
    ("When am I?" : String).length = 10 ∧
    validLine "When am I?" = false ∧
    (∀ content : String, scenario_lines content = (cleanedLines content).filter validLine) := by
  refine ⟨fun q => ?_, by decide, by decide, by decide, fun content => rfl⟩
  simp [validLine]

/-- Claim C2: for every instruction, default list, engine list, refresh flag
and oracle behaviour (exceptions included), ai_generate_questions returns
(it is a total function of the embedding) a list of exactly as many
questions as there are defaults, each passing the situational constraint of
_looks_situational; the cache invariant is preserved; and when the cache is
not read and no attempt can be accepted, the returned ai_ok is false. -/
theorem C2_no_escape (oracle : Nat → GenResult) (cache : Cache) (prompt : String)
    (defaults model_candidates : List String) (force_refresh : Bool)
    (hc : CacheValid cache) :
    (ai_generate_questions oracle cache prompt defaults model_candidates force_refresh).questions.length
      = defaults.length ∧
    (∀ q ∈ (ai_generate_questions oracle cache prompt defaults model_candidates force_refresh).questions,
      looks_situational q = true) ∧
    CacheValid (ai_generate_questions oracle cache prompt defaults model_candidates force_refresh).cache ∧
    ((cacheRead cache (prompt, defaults.length) force_refresh = none) →
      (∀ k, attemptOk defaults.length oracle k = false) →
      (ai_generate_questions oracle cache prompt defaults model_candidates force_refresh).meta.ai_ok
        = false) := by
  cases hread : cacheRead cache (prompt, defaults.length) force_refresh with
  | some out =>
      have heq := ai_hit oracle cache prompt defaults model_candidates force_refresh out hread
      have hstore : cache (prompt, defaults.length) = some out := by
        by_cases hfr : force_refresh = true
        · rw [hfr] at hread; simp [cacheRead] at hread
        · simp only [Bool.not_eq_true] at hfr
          rw [hfr] at hread
          simpa [cacheRead] using hread
      obtain ⟨qs, m⟩ := out
      have hcv := hc (prompt, defaults.length) qs m hstore
      rw [heq]
      refine ⟨hcv.1, hcv.2, hc, ?_⟩
      intro hnone _
      exact Option.noConfusion hnone
  | none =>
      obtain ⟨htr, hmeta, hq_some, hq_none, hcache⟩ :=
        ai_miss oracle cache prompt defaults model_candidates force_refresh hread
      have hvalid : (ai_generate_questions oracle cache prompt defaults model_candidates force_refresh).questions.length = defaults.length ∧
          ∀ q ∈ (ai_generate_questions oracle cache prompt defaults model_candidates force_refresh).questions,
            looks_situational q = true := by
        cases hacc : (runAttempts defaults.length oracle
            (attemptPlan (if model_candidates.isEmpty then default_models else model_candidates))
            0 ⟨none, false, "not attempted"⟩).accepted with
        | some qs =>
            obtain ⟨hlen, hsit, _⟩ := run_accepted_spec defaults.length oracle _ 0 _ qs hacc
            have hq := hq_some qs hacc
            rw [hq]
            exact ⟨hlen, hsit⟩
        | none =>
            have hq := hq_none hacc
            rw [hq]
            refine ⟨by simp, ?_⟩
            intro q hqmem
            obtain ⟨d, _, rfl⟩ := List.mem_map.mp hqmem
            exact fix_default_ok d
      refine ⟨hvalid.1, hvalid.2, ?_, ?_⟩
      · rw [hcache]
        intro key' qs' m' h'
        unfold cacheWrite at h'
        by_cases hk : key' = (prompt, defaults.length)
        · rw [if_pos hk] at h'
          simp only [Option.some.injEq, Prod.mk.injEq] at h'
          refine ⟨?_, ?_⟩
          · rw [← h'.1, hk]
            exact hvalid.1
          · rw [← h'.1]
            exact hvalid.2
        · rw [if_neg hk] at h'
          exact hc key' qs' m' h'
      · intro _ hall
        have hnone := run_none_of_allfail defaults.length oracle hall
          (attemptPlan (if model_candidates.isEmpty then default_models else model_candidates))
          0 ⟨none, false, "not attempted"⟩
        rw [hmeta]
        exact run_none_meta defaults.length oracle _ 0 _ rfl hnone

/-- Claim C2 (witness): the guarantees at a concrete input, with every
generation call failing. -/
theorem C2_no_escape_witness :
    (ai_generate_questions err_oracle empty_cache "p" ["a?"] [] true).questions.length
      = (["a?"] : List String).length ∧
    (∀ q ∈ (ai_generate_questions err_oracle empty_cache "p" ["a?"] [] true).questions,
      looks_situational q = true) ∧
    CacheValid (ai_generate_questions err_oracle empty_cache "p" ["a?"] [] true).cache ∧
    ((cacheRead empty_cache ("p", (["a?"] : List String).length) true = none) →
      (∀ k, attemptOk (["a?"] : List String).length err_oracle k = false) →
      (ai_generate_questions err_oracle empty_cache "p" ["a?"] [] true).meta.ai_ok = false) :=
  C2_no_escape err_oracle empty_cache "p" ["a?"] [] true
    (fun _ _ _ h => Option.noConfusion h)

/-- Claim C3 (counterexample): a forced-refresh run in which every
generation call raises makes all six planned calls and records the error
reason, but its trace holds no Ev.sleep at all: the fixed backoff of line
130 runs only after count-mismatch rejections inside the try block, never
after a call-level exception, whose except branch continues immediately. -/
theorem C3_counterexample :
    (ai_generate_questions err_oracle empty_cache "p" ["a?"] [] true).trace =
      [Ev.call "gpt-4.1-nano" false, Ev.call "gpt-4.1-nano" true,
       Ev.call "gpt-4o-mini" false, Ev.call "gpt-4o-mini" true,
       Ev.call "gpt-3.5-turbo" false, Ev.call "gpt-3.5-turbo" true] ∧
    (ai_generate_questions err_oracle empty_cache "p" ["a?"] [] true).meta.reason
      = "error: boom" := by
  refine ⟨by decide, by decide⟩

/-- Claim C3 (amended): when a generation call raises, the failure reason is
recorded in the attempt metadata (used_model set, ai_ok false, reason the
error message) and iteration continues with the next attempt; the only
event the erroring attempt adds to the trace is its generation call — the
short fixed backoff is applied after validation-rejected attempts, not
after call-level errors. -/
theorem C3_amended (expected : Nat) (oracle : Nat → GenResult) (m : String) (s : Bool)
    (rest : List (String × Bool)) (k : Nat) (meta : Meta) (e : String)
    (horc : oracle k = GenResult.err e) :
    runAttempts expected oracle ((m, s) :: rest) k meta =
      ⟨(runAttempts expected oracle rest (k + 1) (attempt_meta_err m e)).accepted,
       (runAttempts expected oracle rest (k + 1) (attempt_meta_err m e)).meta,
       Ev.call m s :: (runAttempts expected oracle rest (k + 1) (attempt_meta_err m e)).trace⟩ ∧
    (attempt_meta_err m e).reason = "error: " ++ e ∧
    (attempt_meta_err m e).ai_ok = false :=
  ⟨runAttempts_err_step expected oracle m s rest k meta e horc, rfl, rfl⟩

/-- Claim C3 (amended, witness): the erroring step at a concrete input. -/
theorem C3_amended_witness :
    err_oracle 0 = GenResult.err "boom" ∧
    (runAttempts 1 err_oracle [("gpt-4.1-nano", false)] 0 ⟨none, false, "not attempted"⟩ =
      ⟨(runAttempts 1 err_oracle [] 1 (attempt_meta_err "gpt-4.1-nano" "boom")).accepted,
       (runAttempts 1 err_oracle [] 1 (attempt_meta_err "gpt-4.1-nano" "boom")).meta,
       Ev.call "gpt-4.1-nano" false ::
         (runAttempts 1 err_oracle [] 1 (attempt_meta_err "gpt-4.1-nano" "boom")).trace⟩ ∧
     (attempt_meta_err "gpt-4.1-nano" "boom").reason = "error: " ++ "boom" ∧
     (attempt_meta_err "gpt-4.1-nano" "boom").ai_ok = false) :=
  ⟨rfl, C3_amended 1 err_oracle "gpt-4.1-nano" false [] 0 ⟨none, false, "not attempted"⟩ "boom" rfl⟩

/-- Claim C4: when the cache holds an outcome for (prompt, expected count)
and force_refresh is false, ai_generate_questions returns exactly the
cached questions and meta, leaves the cache unchanged, and makes no
generation call (empty trace). -/
theorem C4_cache_hit (oracle : Nat → GenResult) (cache : Cache) (prompt : String)
    (defaults model_candidates : List String) (out : Outcome)
    (hhit : cache (prompt, defaults.length) = some out) :
    ai_generate_questions oracle cache prompt defaults model_candidates false
      = ⟨out.1, out.2, cache, []⟩ :=
  ai_hit oracle cache prompt defaults model_candidates false out hhit

/-- Claim C4 (witness): the cache hit at a concrete input. -/
theorem C4_cache_hit_witness :
    ai_generate_questions err_oracle hit_cache "p" ["a?"] [] false
      = ⟨["q?"], ⟨some "m", true, "r"⟩, hit_cache, []⟩ :=
  C4_cache_hit err_oracle hit_cache "p" ["a?"] []
    (["q?"], ⟨some "m", true, "r"⟩) (by simp [hit_cache])

/-- Claim C5: with force_refresh true the cache read is bypassed: the run
always begins with a generation call of the first engine in normal mode
(the engine list defaulting to the three configured models when empty, so
it is never empty), and the outcome — accepted or fallback — is written to
the cache under (prompt, expected count), overwriting any prior entry. -/
theorem C5_force_refresh (oracle : Nat → GenResult) (cache : Cache) (prompt : String)
    (defaults model_candidates : List String) :
    (∃ m t, (ai_generate_questions oracle cache prompt defaults model_candidates true).trace
        = Ev.call m false :: t) ∧
    (ai_generate_questions oracle cache prompt defaults model_candidates true).cache
        (prompt, defaults.length)
      = some ((ai_generate_questions oracle cache prompt defaults model_candidates true).questions,
              (ai_generate_questions oracle cache prompt defaults model_candidates true).meta) := by
  have hmiss : cacheRead cache (prompt, defaults.length) true = none := rfl
  obtain ⟨htr, hmeta, hq_some, hq_none, hcache⟩ :=
    ai_miss oracle cache prompt defaults model_candidates true hmiss
  constructor
  · rw [htr]
    cases model_candidates with
    | nil =>
        simp only [List.isEmpty_nil, if_true]
        have hplan : attemptPlan default_models
            = ("gpt-4.1-nano", false) :: (("gpt-4.1-nano", true)
              :: attemptPlan ["gpt-4o-mini", "gpt-3.5-turbo"]) := rfl
        rw [hplan]
        exact ⟨"gpt-4.1-nano", run_trace_head defaults.length oracle "gpt-4.1-nano" false _ 0 _⟩
    | cons m0 ms =>
        simp only [List.isEmpty_cons, Bool.false_eq_true, if_false]
        have hplan : attemptPlan (m0 :: ms)
            = (m0, false) :: ((m0, true) :: attemptPlan ms) := rfl
        rw [hplan]
        exact ⟨m0, run_trace_head defaults.length oracle m0 false _ 0 _⟩
  · rw [hcache]
    simp [cacheWrite]

/-- Claim C6: on a cache miss (or forced refresh) the generation calls of
ai_generate_questions follow the plan built from the candidate engines in
their given order, each engine in normal mode then strict mode; the plan
holds 2 times the engine count attempts, so at most that many calls are
made; the calls made are a prefix of the plan; every attempt before the
last call made fails (so a strict-mode call happens only after its engine's
normal-mode attempt failed), and either the run stops immediately at the
first accepted attempt (ai_ok true) or the whole plan is exhausted (ai_ok
false). -/
theorem C6_attempt_order (oracle : Nat → GenResult) (cache : Cache) (prompt : String)
    (defaults model_candidates : List String) (force_refresh : Bool)
    (hmiss : cacheRead cache (prompt, defaults.length) force_refresh = none) :
    (attemptPlan (if model_candidates.isEmpty then default_models else model_candidates)).length
      = 2 * (if model_candidates.isEmpty then default_models else model_candidates).length ∧
    ∃ j, j ≤ (attemptPlan (if model_candidates.isEmpty then default_models else model_candidates)).length ∧
      (∀ i, i < j → attemptOk defaults.length oracle i = false) ∧
      (((ai_generate_questions oracle cache prompt defaults model_candidates force_refresh).meta.ai_ok = true ∧
          j < (attemptPlan (if model_candidates.isEmpty then default_models else model_candidates)).length ∧
          attemptOk defaults.length oracle j = true ∧
          callsOf (ai_generate_questions oracle cache prompt defaults model_candidates force_refresh).trace
            = (attemptPlan (if model_candidates.isEmpty then default_models else model_candidates)).take (j + 1)) ∨
       ((ai_generate_questions oracle cache prompt defaults model_candidates force_refresh).meta.ai_ok = false ∧
          j = (attemptPlan (if model_candidates.isEmpty then default_models else model_candidates)).length ∧
          callsOf (ai_generate_questions oracle cache prompt defaults model_candidates force_refresh).trace
            = attemptPlan (if model_candidates.isEmpty then default_models else model_candidates))) := by
  obtain ⟨htr, hmeta, hq_some, hq_none, hcache⟩ :=
    ai_miss oracle cache prompt defaults model_candidates force_refresh hmiss
  refine ⟨attemptPlan_length _, ?_⟩
  obtain ⟨j, hj, hfail, hcase⟩ := run_calls_spec defaults.length oracle
    (attemptPlan (if model_candidates.isEmpty then default_models else model_candidates))
    0 ⟨none, false, "not attempted"⟩
  refine ⟨j, hj, ?_, ?_⟩
  · intro i hi
    have h := hfail i hi
    simpa using h
  · rcases hcase with ⟨hsome, hlt, hokj, hcalls⟩ | ⟨hnone, hjlen, hcalls⟩
    · left
      obtain ⟨qs, hqs⟩ := Option.isSome_iff_exists.mp hsome
      obtain ⟨_, _, hmok⟩ := run_accepted_spec defaults.length oracle _ 0 _ qs hqs
      refine ⟨by rw [hmeta]; exact hmok, hlt, by simpa using hokj, by rw [htr]; exact hcalls⟩
    · right
      refine ⟨?_, hjlen, by rw [htr]; exact hcalls⟩
      rw [hmeta]
      exact run_none_meta defaults.length oracle _ 0 _ rfl hnone

/-- Claim C6 (witness): the attempt-order property at a concrete input with
every generation call failing. -/
theorem C6_attempt_order_witness :
    (attemptPlan (if ([] : List String).isEmpty then default_models else ([] : List String))).length
      = 2 * (if ([] : List String).isEmpty then default_models else ([] : List String)).length ∧
    ∃ j, j ≤ (attemptPlan (if ([] : List String).isEmpty then default_models else ([] : List String))).length ∧
      (∀ i, i < j → attemptOk (["a?"] : List String).length err_oracle i = false) ∧
      (((ai_generate_questions err_oracle empty_cache "p" ["a?"] [] true).meta.ai_ok = true ∧
          j < (attemptPlan (if ([] : List String).isEmpty then default_models else ([] : List String))).length ∧
          attemptOk (["a?"] : List String).length err_oracle j = true ∧
          callsOf (ai_generate_questions err_oracle empty_cache "p" ["a?"] [] true).trace
            = (attemptPlan (if ([] : List String).isEmpty then default_models else ([] : List String))).take (j + 1)) ∨
       ((ai_generate_questions err_oracle empty_cache "p" ["a?"] [] true).meta.ai_ok = false ∧
          j = (attemptPlan (if ([] : List String).isEmpty then default_models else ([] : List String))).length ∧
          callsOf (ai_generate_questions err_oracle empty_cache "p" ["a?"] [] true).trace
            = attemptPlan (if ([] : List String).isEmpty then default_models else ([] : List String)))) :=
  C6_attempt_order err_oracle empty_cache "p" ["a?"] [] true rfl

end MBot
